import Mathlib

/-!
Verification development for the Remote ID transmitter (`remote_id/new_scheme.c`):
a shallow embedding of the authentication signing / page fragmentation subsystem,
the GPS refresh loop, the command-line parser, the transmission orchestrator and
the process lifecycle, with theorems settling the specification claims.

Modelling conventions:
* C machine integers are `Nat` (unsigned) or `Int`, with `% 256` / `% 2^32`
  applied exactly where the C types (`uint8_t`, `int`, `uint32_t`) wrap.
* C `float`/`double` fields are `Rat`; the `(int)` casts truncate toward zero.
* Byte buffers are `List Nat`; `memcpy(dst, src, n)` into the front of a fixed
  buffer is modelled by replacing the first `n` bytes and keeping the tail.
* The heap buffer returned by `OPENSSL_malloc` is modelled as a total function
  `Nat → Nat`: indices below the signature length hold the signature bytes,
  higher indices hold unspecified residue (the C code does read past the
  signature end; the model keeps those reads abstract).
-/

/-- One `ODID_Auth_data` page. `AuthData` in the external `opendroneid.h` header
is a 24-byte array (`ODID_AUTH_PAGE_NONZERO_DATA_SIZE` = 23 plus one trailing
byte), which matches the literal `24` the source uses in `signature_len/24`.
Fields are the subset `sign_data` touches plus the timestamp. -/
structure AuthPage where
  authType : Nat
  dataPage : Nat
  lastPageIndex : Nat
  pageLength : Nat
  timestamp : Nat
  authData : List Nat
deriving DecidableEq, Repr

/-- Enum value of `ODID_AUTH_UAS_ID_SIGNATURE` in the external header. -/
def ODID_AUTH_UAS_ID_SIGNATURE : Nat := 1

/-- A zeroed auth page, as produced by `odid_initUasData` zero-initialisation. -/
def defaultPage : AuthPage := ⟨0, 0, 0, 0, 0, List.replicate 24 0⟩

/-- The 16-entry `Auth` array of `ODID_UAS_Data` (`ODID_AUTH_MAX_PAGES` = 16),
zero-initialised. -/
def initAuthPages : List AuthPage := List.replicate 16 defaultPage

/-- `memcpy(dst, src, src.length)` into the front of buffer `dst`, keeping the
bytes of `dst` beyond the copied region. -/
def memcpy0 (dst src : List Nat) : List Nat := src ++ dst.drop src.length

/-- The `len` bytes of the malloc'd signature buffer starting at `off`. -/
def bufSlice (buf : Nat → Nat) (off len : Nat) : List Nat :=
  (List.range len).map (fun j => buf (off + j))

/-- Length argument of the loop's `memcpy`:
`MINIMUM(signature_len - sizeof(AuthData)*i - 17, sizeof(AuthData))` computed in
unsigned arithmetic, so when `24*i + 17` exceeds `signature_len` the subtraction
wraps around and the minimum is `24`. -/
def chunkLen (L i : Nat) : Nat :=
  if 24 * i + 17 ≤ L then min (L - (24 * i + 17)) 24 else 24

/-- Update page `i` of the auth array in place; out-of-range indices leave the
array unchanged (the C code would write out of bounds there). -/
def setPage (a : List AuthPage) (i : Nat) (f : AuthPage → AuthPage) : List AuthPage :=
  match a[i]? with
  | some p => a.set i (f p)
  | none => a

/-- One iteration of the fragmentation loop in `sign_data` (lines 117-123):
sets `Auth[0].LastPageIndex = i+1`, `Auth[i].AuthType`, `Auth[i].DataPage = i`,
then copies `chunkLen` bytes from offset `24*i + 17` of the signature buffer
into the front of `Auth[i].AuthData` — the destination is `Auth[i]`, not
`Auth[i+1]`. -/
def iterStep (L : Nat) (buf : Nat → Nat) (a : List AuthPage) (i : Nat) : List AuthPage :=
  setPage
    (setPage (setPage a 0 (fun p => { p with lastPageIndex := (i + 1) % 256 })) i
      (fun p => { p with authType := ODID_AUTH_UAS_ID_SIGNATURE, dataPage := i % 256 }))
    i
    (fun p => { p with authData := memcpy0 p.authData (bufSlice buf (24 * i + 17) (chunkLen L i)) })

/-- The page-fragmentation tail of `sign_data` (lines 112-123): sets
`Auth[0].Length = signature_len`, copies the first 17 signature bytes into
`Auth[0].AuthData`, then runs the loop for `pages = signature_len/24 + 1`
iterations. No size or page-budget check is performed anywhere. -/
def sign_data_frag (a : List AuthPage) (L : Nat) (buf : Nat → Nat) : List AuthPage :=
  (List.range (L / 24 + 1)).foldl (iterStep L buf)
    (setPage (setPage a 0 (fun p => { p with pageLength := L % 256 })) 0
      (fun p => { p with authData := memcpy0 p.authData (bufSlice buf 0 17) }))

/-- `sign_data` after the ECDSA sign: the self-verification result (lines
105-109) selects only which diagnostic line is printed (`0` = "Verification
successful", `1` = "Verification NOT successful"); the fragmentation and every
later step run identically in both cases. -/
def sign_data (a : List AuthPage) (L : Nat) (buf : Nat → Nat) (verifyOk : Bool) :
    List AuthPage × Nat :=
  (sign_data_frag a L buf, if verifyOk then 0 else 1)

/-! ## GPS refresh task (`gps_loop`, lines 416-460) -/

/-- What one iteration of `gps_loop` observes from the GPS collaborator:
`gps_waiting` returned 0 (`notReady`), or it was ready and `gps_read` failed
(`readFail`), or it was ready and the read succeeded (`readOk`). -/
inductive GpsEvent where
  | notReady
  | readFail
  | readOk
deriving DecidableEq, Repr

/-- Result of running `gps_loop` on a finite schedule of iterations:
still in the loop with the current `retries`/`read_retries` counters, or the
thread exited, carrying `args->exit_status` and whether it set the shared
`kill_program` flag on its way out. -/
inductive GpsOutcome where
  | running (retries readRetries : Nat)
  | exited (exitStatus : Nat) (setsKill : Bool)
deriving DecidableEq, Repr

/-- `gps_loop` run over a finite schedule; each schedule entry is the value of
the shared `kill_program` flag observed at the top of the iteration paired with
the GPS event of that iteration.  Mirrors lines 423-456: on `notReady` the test
is `retries++ > MAX_GPS_WAIT_RETRIES` (old value tested, then incremented); a
ready poll resets `retries` to 0 before the read is attempted; a failed read
tests `read_retries++ > MAX_GPS_READ_RETRIES`; a successful read resets
`read_retries` to 0.  Budget exhaustion sets `kill_program` and exits with
status 1; an observed kill flag exits with status 0. -/
def gpsLoopRun (maxWait maxRead : Nat) :
    List (Bool × GpsEvent) → Nat × Nat → GpsOutcome
  | [], s => .running s.1 s.2
  | (kill, e) :: rest, s =>
    if kill then .exited 0 false
    else
      match e with
      | .notReady =>
        if s.1 > maxWait then .exited 1 true
        else gpsLoopRun maxWait maxRead rest (s.1 + 1, s.2)
      | .readFail =>
        if s.2 > maxRead then .exited 1 true
        else gpsLoopRun maxWait maxRead rest (0, s.2 + 1)
      | .readOk => gpsLoopRun maxWait maxRead rest (0, 0)

/-! ## Command-line parsing (`parse_command_line`, lines 359-414) -/

/-- The transport/mode flags of `struct config_data` that
`parse_command_line` sets (all false in the static zero initialiser). -/
structure Config where
  use_beacon : Bool := false
  use_btl : Bool := false
  use_bt4 : Bool := false
  use_bt5 : Bool := false
  use_packs : Bool := false
  use_gps : Bool := false
deriving DecidableEq, Repr

/-- Outcome of `parse_command_line`: print help and `exit(EXIT_SUCCESS)`;
`exit(EXIT_FAILURE)` for the legacy-plus-extended error (line 396) or the
BT4-with-packs error (line 400); or return with the parsed flags. -/
inductive ParseResult where
  | help
  | errExclusive
  | errPacks
  | run (cfg : Config)
deriving DecidableEq, Repr

/-- The first character of an argument (`*argv[i]`); an empty argument yields
its NUL terminator. -/
def firstChar (s : List Char) : Char := s.headD (Char.ofNat 0)

/-- One `switch (*argv[i])` dispatch: the six recognised flag characters set
their flag, everything else falls through to `default: break`. -/
def applyFlag (cf : Config) (c : Char) : Config :=
  if c = 'b' then { cf with use_beacon := true }
  else if c = 'l' then { cf with use_btl := true }
  else if c = '4' then { cf with use_bt4 := true }
  else if c = '5' then { cf with use_bt5 := true }
  else if c = 'p' then { cf with use_packs := true }
  else if c = 'g' then { cf with use_gps := true }
  else cf

/-- The flag loop over all arguments after the program name. -/
def foldCfg (args : List (List Char)) : Config :=
  args.foldl (fun cf a => applyFlag cf (firstChar a)) {}

/-- Numeric codes for the warnings `parse_command_line` prints:
1 = beacon reminder, 2 = beacon-with-singles warning, 3 = simultaneous
BT4/BT5 warning, 4 = BT5-with-singles warning, 5 = GPS sensor warning. -/
def finishParse (cf : Config) : ParseResult × List Nat :=
  let w1 := (if cf.use_beacon then [1] else [])
    ++ (if cf.use_beacon && !cf.use_packs then [2] else [])
  if cf.use_btl && (cf.use_bt4 || cf.use_bt5) then (.errExclusive, w1)
  else if (cf.use_btl || cf.use_bt4) && cf.use_packs then (.errPacks, w1)
  else
    let w2 := w1 ++ (if cf.use_bt4 && cf.use_bt5 then [3] else [])
      ++ (if cf.use_bt5 && !cf.use_packs then [4] else [])
    if !cf.use_beacon && !cf.use_btl && !cf.use_bt4 && !cf.use_bt5 then (.help, w2)
    else (.run cf, w2 ++ (if cf.use_gps then [5] else []))

/-- `parse_command_line` with its printed diagnostics: `argc == 1` prints help
and exits 0; otherwise the flag loop runs, the warnings and the two fatal
flag-combination checks follow in source order, and if no transport flag was
set help is printed with exit 0. -/
def parseFull (args : List (List Char)) : ParseResult × List Nat :=
  if args = [] then (.help, [])
  else finishParse (foldCfg args)

/-- `parse_command_line`, result only. -/
def parseCommandLine (args : List (List Char)) : ParseResult := (parseFull args).1

/-! ## Transmission orchestrator (`send_message`, `send_single_messages`,
`create_message_pack`, `send_packs`, lines 235-334) -/

/-- The transports `send_message` fans out to: `send_bluetooth_message` (btl),
`send_bluetooth_message_extended_api` (btExt, used for BT4 and/or BT5), and
`send_beacon_message` (beacon). -/
inductive Transport where
  | btl
  | btExt
  | beacon
deriving DecidableEq, Repr

/-- The nine encode calls of one singles cycle / one pack assembly, in source
order, plus `packK` for the encoded message pack itself. -/
inductive MsgKind where
  | basic0
  | basic1
  | loc
  | auth0
  | auth1
  | auth2
  | selfid
  | sys
  | opid
  | packK
deriving DecidableEq, Repr

/-- The `msg_counters` array of `struct config_data`, one `uint8_t` slot per
`ODID_MSG_COUNTER_*` index. -/
structure Counters where
  basicID : Nat
  location : Nat
  auth : Nat
  selfID : Nat
  system : Nat
  operatorID : Nat
  packed : Nat
deriving DecidableEq, Repr

/-- Read the counter slot a message kind uses. -/
def ctrGet (c : Counters) : MsgKind → Nat
  | .basic0 | .basic1 => c.basicID
  | .loc => c.location
  | .auth0 | .auth1 | .auth2 => c.auth
  | .selfid => c.selfID
  | .sys => c.system
  | .opid => c.operatorID
  | .packK => c.packed

/-- The `msg_counters[...]++` update: increment the slot, wrapping at the
`uint8_t` boundary. -/
def ctrInc (c : Counters) : MsgKind → Counters
  | .basic0 | .basic1 => { c with basicID := (c.basicID + 1) % 256 }
  | .loc => { c with location := (c.location + 1) % 256 }
  | .auth0 | .auth1 | .auth2 => { c with auth := (c.auth + 1) % 256 }
  | .selfid => { c with selfID := (c.selfID + 1) % 256 }
  | .sys => { c with system := (c.system + 1) % 256 }
  | .opid => { c with operatorID := (c.operatorID + 1) % 256 }
  | .packK => { c with packed := (c.packed + 1) % 256 }

/-- One dispatched send: which encode call produced it, the transports it went
to, the payload bytes handed to the transport layer, and the counter value
passed along. -/
structure SendEvent where
  kind : MsgKind
  targets : List Transport
  payload : List Nat
  ctr : Nat
deriving DecidableEq, Repr

/-- Placeholder event for out-of-range list reads in theorem statements. -/
def defaultEvent : SendEvent := ⟨.basic0, [], [], 0⟩

/-- State threaded through the transmission code: the scratch
`union ODID_Message_encoded` buffer, the message counters, the dispatched
sends, and the diagnostics printed so far (numeric codes). -/
structure TxState where
  buffer : List Nat
  counters : Counters
  sent : List SendEvent
  diags : List Nat
deriving DecidableEq, Repr

/-- `ODID_MESSAGE_SIZE` = 25 in the external header; the scratch buffer is
zeroed by `memset` before the first encode. -/
def zeroMsg : List Nat := List.replicate 25 0

/-- The zero-initialised `ODID_MessagePack_encoded` struct (228 bytes in the
external header: 3 header bytes plus 9 × 25 message bytes). -/
def zeroPack : List Nat := List.replicate 228 0

/-- Initial transmission state: zeroed scratch buffer, zeroed counters (the
static `config` is zero-initialised), nothing sent, nothing printed. -/
def initTxState : TxState := ⟨zeroMsg, ⟨0, 0, 0, 0, 0, 0, 0⟩, [], []⟩

/-- Diagnostic code for "Error: Failed to encode ..." of a given encode call. -/
def encFailCode : MsgKind → Nat
  | .basic0 => 10
  | .basic1 => 11
  | .loc => 12
  | .auth0 => 13
  | .auth1 => 14
  | .auth2 => 15
  | .selfid => 16
  | .sys => 17
  | .opid => 18
  | .packK => 19

/-- The transports enabled for `send_message` (lines 235-243): btl if
`use_btl`, the extended API if `use_bt4 || use_bt5`, beacon if `use_beacon`. -/
def sendTargets (cfg : Config) : List Transport :=
  (if cfg.use_btl then [.btl] else [])
    ++ (if cfg.use_bt4 || cfg.use_bt5 then [.btExt] else [])
    ++ (if cfg.use_beacon then [.beacon] else [])

/-- Record one send and perform the accompanying post-increment of the
counter slot: the event carries the counter's current value, then the slot is
incremented mod 256. -/
def pushSend (s : TxState) (k : MsgKind) (tg : List Transport) (p : List Nat) : TxState :=
  { s with
    sent := s.sent ++ [⟨k, tg, p, ctrGet s.counters k⟩]
    counters := ctrInc s.counters k }

/-- One encode-then-send step of `send_single_messages`: a failed encode only
prints a diagnostic and leaves the scratch buffer with its previous contents;
`send_message(&encoded, config, counter++)` is then called unconditionally,
dispatching whatever the buffer holds. -/
def txStep (cfg : Config) (enc : MsgKind → Option (List Nat)) (s : TxState) (m : MsgKind) :
    TxState :=
  let s1 := match enc m with
    | some p => { s with buffer := p }
    | none => { s with diags := s.diags ++ [encFailCode m] }
  pushSend s1 m (sendTargets cfg) s1.buffer

/-- The nine encode-and-send calls of one `send_single_messages` body, in
source order (lines 251-284). -/
def msgOrder : List MsgKind :=
  [.basic0, .basic1, .loc, .auth0, .auth1, .auth2, .selfid, .sys, .opid]

/-- `send_single_messages`: the `for (int i = 0; i < 1; i++)` loop body runs
exactly once and steps through the nine messages. -/
def send_single_messages (cfg : Config) (enc : MsgKind → Option (List Nat)) (s : TxState) :
    TxState :=
  msgOrder.foldl (txStep cfg enc) s

/-- The nine message slots assembled by `create_message_pack` (lines 292-318):
each failed encode prints a diagnostic and copies the scratch buffer's previous
contents into the slot.  Returns the slots together with the diagnostics. -/
def packMessagesAux (enc : MsgKind → Option (List Nat)) :
    List Nat × List (List Nat) × List Nat :=
  msgOrder.foldl
    (fun st m =>
      match enc m with
      | some p => (p, st.2.1 ++ [p], st.2.2)
      | none => (st.1, st.2.1 ++ [st.1], st.2.2 ++ [encFailCode m]))
    (zeroMsg, [], [])

/-- The nine encoded message slots fed to `encodeMessagePack`. -/
def packMessages (enc : MsgKind → Option (List Nat)) : List (List Nat) :=
  (packMessagesAux enc).2.1

/-- `create_message_pack`: encode the nine messages and then the pack; if
`encodeMessagePack` fails, the diagnostic is printed and the zero-initialised
`pack_enc` struct is what the caller goes on to transmit. -/
def create_message_pack (enc : MsgKind → Option (List Nat))
    (encPack : List (List Nat) → Option (List Nat)) : List Nat × List Nat :=
  let st := packMessagesAux enc
  match encPack st.2.1 with
  | some pk => (pk, st.2.2)
  | none => (zeroPack, st.2.2 ++ [encFailCode .packK])

/-- One iteration of the `send_packs` loop (lines 327-333): a beacon pack send
(with `msg_counters[ODID_MSG_COUNTER_PACKED]++`) if beacon is enabled, then a
BT5 pack send (with its own post-increment) if BT5 is enabled. -/
def packIter (cfg : Config) (pack : List Nat) (s : TxState) : TxState :=
  let s1 := if cfg.use_beacon then pushSend s .packK [.beacon] pack else s
  if cfg.use_bt5 then pushSend s1 .packK [.btExt] pack else s1

/-- The transports that receive each pack, in send order. -/
def packTargets (cfg : Config) : List Transport :=
  (if cfg.use_beacon then [.beacon] else []) ++ (if cfg.use_bt5 then [.btExt] else [])

/-- Number of pack sends (and pack-counter increments) per `send_packs` loop
iteration. -/
def packDelta (cfg : Config) : Nat :=
  (if cfg.use_beacon then 1 else 0) + (if cfg.use_bt5 then 1 else 0)

/-- `send_packs`: assemble the pack once, then send it 10 times
(`for (int i = 0; i < 10; i++)`). -/
def send_packs (cfg : Config) (enc : MsgKind → Option (List Nat))
    (encPack : List (List Nat) → Option (List Nat)) (s : TxState) : TxState :=
  let pack := (create_message_pack enc encPack).1
  (List.range 10).foldl (fun st _ => packIter cfg pack st) s

/-! ## Main transmission flow (`main`, lines 462-547) -/

/-- The external encoders, with `encodeAuthMessage` applied to the auth pages
the signer produced: encoding auth page `i` is modelled as serialising that
page's payload bytes; the other message types stay abstract (`encExt`). -/
def encOfRecord (encExt : MsgKind → Option (List Nat)) (pages : List AuthPage) :
    MsgKind → Option (List Nat)
  | .auth0 => some (pages.getD 0 defaultPage).authData
  | .auth1 => some (pages.getD 1 defaultPage).authData
  | .auth2 => some (pages.getD 2 defaultPage).authData
  | m => encExt m

/-- One body of the transmission loop (lines 534-537 / 540-543): packs mode
sends a pack burst, otherwise one singles cycle. -/
def transmitCycle (cfg : Config) (enc : MsgKind → Option (List Nat))
    (encPack : List (List Nat) → Option (List Nat)) (s : TxState) : TxState :=
  if cfg.use_packs then send_packs cfg enc encPack s else send_single_messages cfg enc s

/-- The GPS-mode transmission loop's exit observation: `some n` when the
`kill_program` flag is first observed true at iteration boundary `n` (the loop
then breaks, having transmitted `n` cycles); `none` when the flag was never
true on the schedule (the loop is still running). -/
def txLoop : List Bool → Option Nat
  | [] => none
  | k :: rest => if k then some 0 else (txLoop rest).map (· + 1)

/-- Number of transmission cycles `main` performs: with GPS the cooperative
loop checks `kill_program` at each iteration boundary; without GPS the
transmission routine is called exactly once and `main` proceeds straight to
`cleanup(EXIT_SUCCESS)` without ever consulting the flag. -/
def mainCycles (cfg : Config) (kills : List Bool) : Option Nat :=
  if cfg.use_gps then txLoop kills else some 1

/-- The transmission state `main` accumulates: parse the flags, sign the
record (the self-verification result `verifyOk` is threaded through
`sign_data`), then run the transmission cycles — all of them that happened on
the given kill schedule in GPS mode, exactly one otherwise.  Help or a fatal
flag-combination error transmits nothing. -/
def processRun (args : List (List Char)) (verifyOk : Bool) (L : Nat) (buf : Nat → Nat)
    (encExt : MsgKind → Option (List Nat)) (encPack : List (List Nat) → Option (List Nat))
    (kills : List Bool) : TxState :=
  match parseCommandLine args with
  | .run cfg =>
    let pages := (sign_data initAuthPages L buf verifyOk).1
    let enc := encOfRecord encExt pages
    let cycles := if cfg.use_gps then (txLoop kills).getD kills.length else 1
    (List.range cycles).foldl (fun s _ => transmitCycle cfg enc encPack s) initTxState
  | _ => initTxState

/-- The process exit code (`main` plus `cleanup`, lines 204-227 and 462-547):
help prints and exits 0; the two flag-combination errors exit 1; in GPS mode a
failed `init_gps` exits via `cleanup(EXIT_FAILURE)`; once the transmission
loop runs, `main` always ends with `cleanup(EXIT_SUCCESS)` — including when
the GPS task exhausted its retry budget and exited with status 1 — so the
code is 0 whenever the loop exits at all; `none` means the loop never exits
on the given schedule. -/
def processExit (args : List (List Char)) (gpsInitOk : Bool) (maxWait maxRead : Nat)
    (trace : List (Bool × GpsEvent)) : Option Nat :=
  match parseCommandLine args with
  | .help => some 0
  | .errExclusive => some 1
  | .errPacks => some 1
  | .run cfg =>
    if cfg.use_gps then
      if !gpsInitOk then some 1
      else
        match gpsLoopRun maxWait maxRead trace (0, 0) with
        | .exited _ _ => some 0
        | .running _ _ => none
    else some 0

/-! ## Digest builder (`hash_basic_id` / `hash_location` / `hash_system`,
lines 51-86) -/

/-- Truncation toward zero, the effect of the C `(int)` cast on the
`float`/`double` fields. -/
def truncQ (q : Rat) : Int :=
  if 0 ≤ q then Rat.floor q else -(Rat.floor (-q))

/-- The four little-endian bytes of a 32-bit value. -/
def le4 (n : Nat) : List Nat :=
  [n % 256, n / 256 % 256, n / 256 ^ 2 % 256, n / 256 ^ 3 % 256]

/-- The bytes `SHA256_Update(sha256, &x, sizeof(int))` feeds for a 32-bit
`int`, two's-complement little-endian. -/
def intBytes (z : Int) : List Nat := le4 (z.emod (2 ^ 32)).toNat

/-- The bytes fed for a `uint32_t`. -/
def u32Bytes (n : Nat) : List Nat := le4 (n % 2 ^ 32)

/-- One `ODID_BasicID_data` slot; only `UASID` is hashed. -/
structure BasicIDData where
  uaType : Nat
  idType : Nat
  uasID : List Nat
deriving DecidableEq, Repr

/-- `ODID_Location_data`; the nine hashed fields are `Rat`, the rest are the
enum/accuracy fields the digest skips. -/
structure LocationData where
  status : Nat
  direction : Rat
  speedHorizontal : Rat
  speedVertical : Rat
  latitude : Rat
  longitude : Rat
  altitudeBaro : Rat
  altitudeGeo : Rat
  heightType : Nat
  height : Rat
  horizAccuracy : Nat
  vertAccuracy : Nat
  baroAccuracy : Nat
  speedAccuracy : Nat
  tsAccuracy : Nat
  timeStamp : Rat
deriving DecidableEq, Repr

/-- `ODID_System_data`. -/
structure SystemData where
  operatorLocationType : Nat
  classificationType : Nat
  operatorLatitude : Rat
  operatorLongitude : Rat
  areaCount : Nat
  areaRadius : Nat
  areaCeiling : Rat
  areaFloor : Rat
  categoryEU : Nat
  classEU : Nat
  operatorAltitudeGeo : Rat
  timestamp : Nat
deriving DecidableEq, Repr

/-- `ODID_SelfID_data`; the whole `Desc` buffer is hashed. -/
structure SelfIDData where
  descType : Nat
  desc : List Nat
deriving DecidableEq, Repr

/-- `ODID_OperatorID_data`; the whole `OperatorId` buffer is hashed. -/
structure OperatorIDData where
  operatorIdType : Nat
  operatorId : List Nat
deriving DecidableEq, Repr

/-- The `ODID_UAS_Data` aggregate. -/
structure UASRecord where
  basicID0 : BasicIDData
  basicID1 : BasicIDData
  location : LocationData
  auth : List AuthPage
  selfID : SelfIDData
  system : SystemData
  operatorID : OperatorIDData
deriving DecidableEq, Repr

/-- `hash_basic_id`: feeds the raw `UASID` buffer. -/
def hash_basic_id (b : BasicIDData) : List Nat := b.uasID

/-- `hash_location`: the nine location fields, each `(int)`-cast
(truncated toward zero) and fed as a 32-bit little-endian `int`. -/
def hash_location (loc : LocationData) : List Nat :=
  intBytes (truncQ loc.direction) ++ intBytes (truncQ loc.speedHorizontal)
    ++ intBytes (truncQ loc.speedVertical) ++ intBytes (truncQ loc.latitude)
    ++ intBytes (truncQ loc.longitude) ++ intBytes (truncQ loc.altitudeBaro)
    ++ intBytes (truncQ loc.altitudeGeo) ++ intBytes (truncQ loc.height)
    ++ intBytes (truncQ loc.timeStamp)

/-- `hash_system`: operator latitude/longitude/altitude `(int)`-cast, then the
`uint32_t` timestamp.  The source also computes `AreaCeiling`/`AreaFloor` as
ints but never feeds them to `SHA256_Update`, so they are not part of the
digest. -/
def hash_system (sys : SystemData) : List Nat :=
  intBytes (truncQ sys.operatorLatitude) ++ intBytes (truncQ sys.operatorLongitude)
    ++ intBytes (truncQ sys.operatorAltitudeGeo) ++ u32Bytes sys.timestamp

/-- The full byte sequence `sign_data` feeds to SHA-256 (lines 91-98), in
source order.  SHA-256 is a deterministic function of this sequence, so two
records with equal `digestInput` have equal digests. -/
def digestInput (r : UASRecord) : List Nat :=
  hash_basic_id r.basicID0 ++ hash_basic_id r.basicID1 ++ hash_location r.location
    ++ r.selfID.desc ++ hash_system r.system ++ r.operatorID.operatorId

/-! ## Concrete inputs used by the claim theorems -/

/-- The six flag characters `parse_command_line` recognises. -/
def flagChars : List Char := ['b', 'l', '4', '5', 'p', 'g']

/-- An encoder family that fails on exactly one message kind and returns a
distinctive one-byte payload on the others. -/
def encFailAt (k : MsgKind) : MsgKind → Option (List Nat) :=
  fun m => if m = k then none else some [encFailCode m]

/-- A fully populated example record, in the spirit of `fill_example_data` /
`fill_example_gps_data` (values as `mkRat` literals). -/
def c8RecordA : UASRecord :=
  { basicID0 := ⟨2, 1, [49, 50, 51]⟩
    basicID1 := ⟨2, 4, [70, 68, 51]⟩
    location :=
      { status := 2, direction := 361, speedHorizontal := 0,
        speedVertical := mkRat 7 20, latitude := mkRat 103 2,
        longitude := mkRat (-13) 10000, altitudeBaro := 100, altitudeGeo := 110,
        heightType := 0, height := 80, horizAccuracy := 11, vertAccuracy := 4,
        baroAccuracy := 2, speedAccuracy := 2, tsAccuracy := 1,
        timeStamp := mkRat 36052 100 }
    auth := initAuthPages
    selfID := ⟨1, [84, 101, 115, 116]⟩
    system :=
      { operatorLocationType := 0, classificationType := 1,
        operatorLatitude := mkRat 103 2, operatorLongitude := mkRat (-99) 100,
        areaCount := 1, areaRadius := 0, areaCeiling := 0, areaFloor := 0,
        categoryEU := 1, classEU := 1, operatorAltitudeGeo := mkRat 41 2,
        timestamp := 28056789 }
    operatorID := ⟨0, [78, 111, 116]⟩ }

/-- `c8RecordA` with changes only in digest-excluded fields (status, basic-ID
type tag, area ceiling) and sub-unit floating-point noise on digest-covered
float fields (direction 361 → 361.25, latitude 51.5 → 51.9). -/
def c8RecordB : UASRecord :=
  { c8RecordA with
    basicID0 := { c8RecordA.basicID0 with uaType := 5 }
    location := { c8RecordA.location with
      status := 3, direction := mkRat 1445 4, latitude := mkRat 519 10 }
    system := { c8RecordA.system with areaCeiling := 500 } }

/-! ## Helper lemmas -/

theorem setPage_length (a : List AuthPage) (i : Nat) (f : AuthPage → AuthPage) :
    (setPage a i f).length = a.length := by
  unfold setPage
  cases h : a[i]? <;> simp

theorem getD_setPage_ne (a : List AuthPage) (f : AuthPage → AuthPage) {i j : Nat}
    (d : AuthPage) (h : i ≠ j) : (setPage a i f).getD j d = a.getD j d := by
  unfold setPage
  cases hc : a[i]? <;> simp [List.getD_eq_getElem?_getD, List.getElem?_set_ne h]

theorem getD_setPage_self (a : List AuthPage) (f : AuthPage → AuthPage) (j : Nat)
    (d : AuthPage) (h : j < a.length) : (setPage a j f).getD j d = f (a.getD j d) := by
  unfold setPage
  rw [List.getElem?_eq_getElem h]
  simp [List.getD_eq_getElem?_getD, List.getElem?_set_self h, List.getElem?_eq_getElem h]

theorem iterStep_length (L : Nat) (buf : Nat → Nat) (a : List AuthPage) (i : Nat) :
    (iterStep L buf a i).length = a.length := by
  simp [iterStep, setPage_length]

theorem foldl_iterStep_length (L : Nat) (buf : Nat → Nat) :
    ∀ (l : List Nat) (a : List AuthPage), (l.foldl (iterStep L buf) a).length = a.length := by
  intro l
  induction l with
  | nil => intro a; rfl
  | cons x xs ih => intro a; rw [List.foldl_cons, ih, iterStep_length]

theorem iterStep_getD_of_ne (L : Nat) (buf : Nat → Nat) (a : List AuthPage) (i j : Nat)
    (d : AuthPage) (h0 : j ≠ 0) (hi : j ≠ i) :
    (iterStep L buf a i).getD j d = a.getD j d := by
  simp only [iterStep]
  rw [getD_setPage_ne _ _ _ (Ne.symm hi), getD_setPage_ne _ _ _ (Ne.symm hi),
    getD_setPage_ne _ _ _ (Ne.symm h0)]

theorem foldl_iterStep_getD_of_forall (L : Nat) (buf : Nat → Nat) (j : Nat) (d : AuthPage)
    (h0 : j ≠ 0) :
    ∀ (l : List Nat) (a : List AuthPage), (∀ i ∈ l, i ≠ j) →
      (l.foldl (iterStep L buf) a).getD j d = a.getD j d := by
  intro l
  induction l with
  | nil => intro a _; rfl
  | cons x xs ih =>
    intro a hl
    rw [List.foldl_cons, ih _ (fun i hi => hl i (List.mem_cons_of_mem x hi)),
      iterStep_getD_of_ne _ _ _ _ _ _ h0 (Ne.symm (hl x (List.mem_cons_self x xs)))]

theorem gpsLoopRun_replicate_notReady (maxWait maxRead : Nat) :
    ∀ (n r rr : Nat),
      gpsLoopRun maxWait maxRead (List.replicate n (false, .notReady)) (r, rr)
        = if r + n ≤ maxWait + 1 ∨ n = 0 then .running (r + n) rr else .exited 1 true := by
  intro n
  induction n with
  | zero => intro r rr; simp [gpsLoopRun]
  | succ k ih =>
    intro r rr
    rw [List.replicate_succ]
    by_cases hr : r > maxWait
    · simp only [gpsLoopRun, Bool.false_eq_true, if_false, if_pos hr]
      have : ¬(r + (k + 1) ≤ maxWait + 1 ∨ k + 1 = 0) := by omega
      rw [if_neg this]
    · simp only [gpsLoopRun, Bool.false_eq_true, if_false, if_neg hr]
      rw [ih (r + 1) rr]
      by_cases hc : r + 1 + k ≤ maxWait + 1 ∨ k = 0
      · rw [if_pos hc]
        have hc2 : r + (k + 1) ≤ maxWait + 1 ∨ k + 1 = 0 := by omega
        rw [if_pos hc2]
        have : r + 1 + k = r + (k + 1) := by omega
        rw [this]
      · rw [if_neg hc]
        have hc2 : ¬(r + (k + 1) ≤ maxWait + 1 ∨ k + 1 = 0) := by omega
        rw [if_neg hc2]

/-! ## Claim C1 -/

/-- C1: evaluation of `sign_data`'s fragmentation at its `sources`' scenario, a
63-byte signature (bytes 0,1,...,62): the loop's first iteration overwrites
page 0's payload — its first 17 bytes end up being signature bytes 17..33, not
bytes 0..16 — and `LastPageIndex` is left at 3 (the loop count), not 2, so the
claimed concatenation cannot reproduce the signature.  The claim describes the
intended layout (the one `fill_example_data` exhibits: 17+23+23 bytes,
`LastPageIndex` 2, and the loop's own `"Auth Page %d", i+1` print labels);
the code writes chunk `i` into `Auth[i]` instead of `Auth[i+1]`. -/
theorem c1_fragmentation_bug_at_63 :
    ((sign_data_frag initAuthPages 63 (fun j => j % 256)).getD 0 defaultPage).authData.take 17
      = [17, 18, 19, 20, 21, 22, 23, 24, 25, 26, 27, 28, 29, 30, 31, 32, 33]
    ∧ ((sign_data_frag initAuthPages 63 (fun j => j % 256)).getD 0 defaultPage).authData.take 17
      ≠ (List.range 63).take 17
    ∧ ((sign_data_frag initAuthPages 63 (fun j => j % 256)).getD 0 defaultPage).lastPageIndex = 3
    ∧ ((sign_data_frag initAuthPages 63 (fun j => j % 256)).getD 0 defaultPage).pageLength = 63 := by
  decide

/-! ## Claim C7 -/

/-- C7, counterexample to the claim as stated: with `MAX_GPS_WAIT_RETRIES = 3`,
after exactly `MAX_GPS_WAIT_RETRIES + 1 = 4` consecutive not-ready polls from a
fresh state the task is still running (counters at 4/0) — it has neither
terminated nor set the shutdown flag. -/
theorem c7_cex_maxPlusOne_still_running :
    gpsLoopRun 3 5 (List.replicate 4 (false, .notReady)) (0, 0) = .running 4 0 := by
  decide

/-- C7 (amended): the task terminates with failure status 1 and sets the
shared shutdown flag after exactly `MAX_GPS_WAIT_RETRIES + 2` consecutive
not-ready polls with no successful read in between (the source tests
`retries++ > MAX_GPS_WAIT_RETRIES`, so the old value must already exceed the
bound); after `MAX_GPS_WAIT_RETRIES + 1` such polls it is still running; and a
single successful read resets both the wait-retry and read-retry counters to
zero. -/
theorem c7_gps_escalation (maxWait maxRead rr : Nat) :
    gpsLoopRun maxWait maxRead (List.replicate (maxWait + 2) (false, .notReady)) (0, rr)
      = .exited 1 true
    ∧ gpsLoopRun maxWait maxRead (List.replicate (maxWait + 1) (false, .notReady)) (0, rr)
      = .running (maxWait + 1) rr
    ∧ ∀ (rest : List (Bool × GpsEvent)) (s : Nat × Nat),
        gpsLoopRun maxWait maxRead ((false, .readOk) :: rest) s
          = gpsLoopRun maxWait maxRead rest (0, 0) := by
  refine ⟨?_, ?_, ?_⟩
  · rw [gpsLoopRun_replicate_notReady]
    have : ¬(0 + (maxWait + 2) ≤ maxWait + 1 ∨ maxWait + 2 = 0) := by omega
    rw [if_neg this]
  · rw [gpsLoopRun_replicate_notReady]
    have : 0 + (maxWait + 1) ≤ maxWait + 1 ∨ maxWait + 1 = 0 := by omega
    rw [if_pos this]
    simp
  · intro rest s
    simp [gpsLoopRun]

/-! ## Claim C4 -/

/-- C4, counterexample to the claim as stated: a run `./new_scheme l g` whose
GPS task exhausts its wait-retry budget (five consecutive not-ready polls with
`MAX_GPS_WAIT_RETRIES = 3`): the GPS thread exits with status 1 and sets the
shutdown flag, yet the process exit code is 0, because `main` leaves its loop
on the flag and always calls `cleanup(EXIT_SUCCESS)`. -/
theorem c4_cex_gps_exhaustion_exits_zero :
    processExit [['l'], ['g']] true 3 3 (List.replicate 5 (false, .notReady)) = some 0
    ∧ gpsLoopRun 3 3 (List.replicate 5 (false, .notReady)) (0, 0) = .exited 1 true := by
  decide

/-- C4 (amended): the process exit code is 0 or 1 whenever the process
terminates; it is 1 exactly for the two fatal flag-combination errors and for
a failed GPS initialisation; and when the GPS task exhausts a retry budget —
exiting with status 1 and setting the shutdown flag — the process still
terminates with exit code 0 (exit code 0 on clean shutdown, on help, and on
GPS-retry-exhaustion shutdown). -/
theorem c4_exit_codes (args : List (List Char)) (gpsInitOk : Bool) (maxWait maxRead : Nat)
    (trace : List (Bool × GpsEvent)) :
    (processExit args gpsInitOk maxWait maxRead trace = some 1 ↔
      parseCommandLine args = .errExclusive ∨ parseCommandLine args = .errPacks
        ∨ ∃ cfg, parseCommandLine args = .run cfg ∧ cfg.use_gps = true ∧ gpsInitOk = false)
    ∧ (∀ cfg, parseCommandLine args = .run cfg → cfg.use_gps = true → gpsInitOk = true →
        gpsLoopRun maxWait maxRead trace (0, 0) = .exited 1 true →
        processExit args gpsInitOk maxWait maxRead trace = some 0) := by
  constructor
  · cases h : parseCommandLine args with
    | help => simp [processExit, h]
    | errExclusive => simp [processExit, h]
    | errPacks => simp [processExit, h]
    | run cfg =>
      simp only [processExit, h]
      by_cases hg : cfg.use_gps
      · cases hok : gpsInitOk with
        | false => simp [hg, hok]
        | true =>
          simp only [hg, hok, Bool.not_true, Bool.false_eq_true, if_false, if_true]
          cases hrun : gpsLoopRun maxWait maxRead trace (0, 0) <;> simp [h, hg, hok]
      · have hg' : cfg.use_gps = false := by simpa using hg
        simp [hg', h]
  · intro cfg hrun hg hok hexit
    simp only [processExit, hrun, hg, hok, Bool.not_true, Bool.false_eq_true, if_false, if_true]
    rw [hexit]

/-- C4 witness: `c4_exit_codes` applied to the concrete GPS-exhaustion run. -/
theorem c4_exit_codes_witness :
    processExit [['l'], ['g']] true 3 3 (List.replicate 5 (false, .notReady)) = some 0 :=
  (c4_exit_codes [['l'], ['g']] true 3 3 (List.replicate 5 (false, .notReady))).2
    { use_btl := true, use_gps := true } (by decide) rfl rfl (by decide)

/-! ## Claim C9 -/

theorem txLoop_eq_some (kills : List Bool) :
    ∀ n : Nat, kills.getD n false = true → (∀ m, m < n → kills.getD m false = false) →
      txLoop kills = some n := by
  induction kills with
  | nil => intro n h _; simp [List.getD] at h
  | cons k rest ih =>
    intro n h hlt
    cases n with
    | zero =>
      simp only [List.getD_cons_zero] at h
      simp [txLoop, h]
    | succ m =>
      have hk : k = false := by
        have := hlt 0 (Nat.succ_pos m)
        simpa using this
      simp only [List.getD_cons_succ] at h
      rw [txLoop, hk]
      simp only [Bool.false_eq_true, if_false]
      rw [ih m h (fun j hj => by
        have := hlt (j + 1) (by omega)
        simpa using this)]
      rfl

theorem txLoop_eq_none (kills : List Bool) (h : ∀ b ∈ kills, b = false) :
    txLoop kills = none := by
  induction kills with
  | nil => rfl
  | cons k rest ih =>
    have hk : k = false := h k (List.mem_cons_self k rest)
    rw [txLoop, hk]
    simp only [Bool.false_eq_true, if_false]
    rw [ih (fun b hb => h b (List.mem_cons_of_mem k hb))]
    rfl

/-- C9, counterexample to the claim as stated: `./new_scheme l` is a run with
a transport enabled, the shutdown flag is never observed true, and yet the
transmission phase performs exactly one cycle and exits — without GPS mode
`main` calls the transmission routine once and proceeds straight to
`cleanup(EXIT_SUCCESS)`, never consulting the flag. -/
theorem c9_cex_non_gps_exits_without_flag :
    parseCommandLine [['l']] = .run { use_btl := true }
    ∧ ({ use_btl := true } : Config).use_gps = false
    ∧ mainCycles { use_btl := true } (List.replicate 5 false) = some 1 := by
  decide

/-- C9 (amended): only in GPS mode is the transmission loop governed by the
shared shutdown flag — it exits exactly at the first iteration boundary where
the flag is observed true, and runs forever if the flag never becomes true;
without GPS mode the transmission routine runs exactly once and the process
exits regardless of the flag. -/
theorem c9_transmission_loop (cfg : Config) (kills : List Bool) :
    (cfg.use_gps = false → mainCycles cfg kills = some 1)
    ∧ (∀ n : Nat, cfg.use_gps = true → kills.getD n false = true →
        (∀ m, m < n → kills.getD m false = false) → mainCycles cfg kills = some n)
    ∧ (cfg.use_gps = true → (∀ b ∈ kills, b = false) → mainCycles cfg kills = none) := by
  refine ⟨?_, ?_, ?_⟩
  · intro h; simp [mainCycles, h]
  · intro n hg hk hlt
    simp only [mainCycles, hg, if_true]
    exact txLoop_eq_some kills n hk hlt
  · intro hg hall
    simp only [mainCycles, hg, if_true]
    exact txLoop_eq_none kills hall

/-- C9 witness: `c9_transmission_loop` at a GPS-mode run whose flag first
becomes true at boundary 2, and at a non-GPS run. -/
theorem c9_transmission_loop_witness :
    mainCycles { use_btl := true, use_gps := true } [false, false, true] = some 2
    ∧ mainCycles { use_btl := true } [false] = some 1 :=
  ⟨(c9_transmission_loop { use_btl := true, use_gps := true } [false, false, true]).2.1
      2 rfl (by decide) (by decide),
   (c9_transmission_loop { use_btl := true } [false]).1 rfl⟩

/-! ## Claim C3 -/

/-- C3, counterexample to the claim as stated: a `./new_scheme l` run whose
post-signing self-verification fails (`sign_data` prints the
"Verification NOT successful" diagnostic, code 1) still dispatches all nine
messages of the transmission cycle — nothing in the code aborts or skips
transmission after a failed verification. -/
theorem c3_cex_failed_verification_still_transmits :
    (sign_data initAuthPages 63 (fun j => j % 256) false).2 = 1
    ∧ (processRun [['l']] false 63 (fun j => j % 256)
        (fun _ => some [7]) (fun _ => some [8]) []).sent.length = 9
    ∧ (processRun [['l']] false 63 (fun j => j % 256)
        (fun _ => some [7]) (fun _ => some [8]) []).sent ≠ [] := by
  decide

/-- C3 (amended): the self-verification result affects only which diagnostic
line `sign_data` prints; the populated authentication pages and the entire
subsequent transmission are identical whether verification succeeded or
failed — in particular a failed self-check is not treated as fatal and does
not prevent any message or pack from being dispatched. -/
theorem c3_verification_does_not_gate_transmission (args : List (List Char)) (L : Nat)
    (buf : Nat → Nat) (encExt : MsgKind → Option (List Nat))
    (encPack : List (List Nat) → Option (List Nat)) (kills : List Bool) :
    processRun args false L buf encExt encPack kills
      = processRun args true L buf encExt encPack kills
    ∧ (sign_data initAuthPages L buf false).1 = (sign_data initAuthPages L buf true).1 := by
  constructor
  · cases h : parseCommandLine args <;> simp [processRun, h, sign_data]
  · rfl

/-! ## Claim C5 -/

theorem txStep_counters (cfg : Config) (enc : MsgKind → Option (List Nat)) (s : TxState)
    (m : MsgKind) : (txStep cfg enc s m).counters = ctrInc s.counters m := by
  unfold txStep pushSend
  cases h : enc m <;> simp

theorem packIter_packed (cfg : Config) (pack : List Nat) (s : TxState)
    (h : s.counters.packed < 256) :
    (packIter cfg pack s).counters.packed = (s.counters.packed + packDelta cfg) % 256
    ∧ (packIter cfg pack s).counters.packed < 256 := by
  by_cases hb : cfg.use_beacon <;> by_cases h5 : cfg.use_bt5 <;>
    simp [packIter, pushSend, ctrInc, ctrGet, packDelta, hb, h5] <;> omega

theorem packFold_packed (cfg : Config) (pack : List Nat) :
    ∀ (n : Nat) (s : TxState), s.counters.packed < 256 →
      (((List.range n).foldl (fun st _ => packIter cfg pack st) s).counters).packed
        = (s.counters.packed + n * packDelta cfg) % 256 := by
  intro n
  induction n with
  | zero =>
    intro s h
    simp only [List.range_zero, List.foldl_nil, Nat.zero_mul, Nat.add_zero]
    omega
  | succ k ih =>
    intro s h
    rw [List.range_succ, List.foldl_append, List.foldl_cons, List.foldl_nil]
    have hin := ih s h
    have hlt : (((List.range k).foldl (fun st _ => packIter cfg pack st) s).counters).packed
        < 256 := by
      rw [hin]; exact Nat.mod_lt _ (by omega)
    rw [(packIter_packed cfg pack _ hlt).1, hin, Nat.mod_add_mod]
    congr 1
    ring

/-- C5, counterexample to the claim as stated: with an encoder that fails on
the Location message, `send_single_messages` still increments the location
counter from 0 to 1 — the `msg_counters[...]++` is part of the unconditional
`send_message` call, so a failed encoding does not leave the counter
unchanged. -/
theorem c5_cex_failed_encoding_increments_counter :
    encFailAt .loc .loc = none
    ∧ (send_single_messages { use_btl := true } (encFailAt .loc) initTxState).counters.location
      = 1 := by
  decide

/-- C5 (amended): each per-type counter is incremented by exactly 1 (mod 256)
per `send_message` call of that type — two basic-ID sends, one location, three
auth, one self-ID, one system, one operator-ID per singles cycle — regardless
of whether the encoding succeeded, because the send and its counter
post-increment are unconditional; and each `send_packs` burst increments the
pack counter by one per enabled pack transport per iteration, 10 iterations,
mod 256. -/
theorem c5_counter_increments (cfg : Config) (enc : MsgKind → Option (List Nat)) (s0 : TxState)
    (h : s0.counters.packed < 256) :
    (send_single_messages cfg enc s0).counters =
      { basicID := (s0.counters.basicID + 2) % 256
        location := (s0.counters.location + 1) % 256
        auth := (s0.counters.auth + 3) % 256
        selfID := (s0.counters.selfID + 1) % 256
        system := (s0.counters.system + 1) % 256
        operatorID := (s0.counters.operatorID + 1) % 256
        packed := s0.counters.packed }
    ∧ ∀ encPack : List (List Nat) → Option (List Nat),
        (send_packs cfg enc encPack s0).counters.packed =
          (s0.counters.packed + 10 * packDelta cfg) % 256 := by
  constructor
  · rcases s0 with ⟨buf0, ⟨b, lo, au, se, sy, op, pk⟩, sent0, diags0⟩
    simp only [send_single_messages, msgOrder, List.foldl_cons, List.foldl_nil, txStep_counters]
    simp [ctrInc]
  · intro encPack
    unfold send_packs
    exact packFold_packed cfg _ 10 s0 h

/-- C5 witness: `c5_counter_increments` at a concrete run (singles with a
failing Location encoder from zeroed counters; a beacon+BT5 pack burst). -/
theorem c5_counter_increments_witness :
    (send_single_messages { use_btl := true } (encFailAt .loc) initTxState).counters =
      { basicID := 2, location := 1, auth := 3, selfID := 1, system := 1,
        operatorID := 1, packed := 0 }
    ∧ (send_packs { use_beacon := true, use_bt5 := true } (encFailAt .loc) (fun _ => some [9])
        initTxState).counters.packed = 20 :=
  ⟨(c5_counter_increments { use_btl := true } (encFailAt .loc) initTxState (by decide)).1,
   (c5_counter_increments { use_beacon := true, use_bt5 := true } (encFailAt .loc) initTxState
      (by decide)).2 (fun _ => some [9])⟩

/-! ## Claim C6 -/

theorem txStep_sent_length (cfg : Config) (enc : MsgKind → Option (List Nat)) (s : TxState)
    (m : MsgKind) : (txStep cfg enc s m).sent.length = s.sent.length + 1 := by
  cases h : enc m <;> simp [txStep, pushSend, h]

theorem txStep_diags_mem (cfg : Config) (enc : MsgKind → Option (List Nat)) (s : TxState)
    (m : MsgKind) (x : Nat) (hx : x ∈ s.diags) : x ∈ (txStep cfg enc s m).diags := by
  cases h : enc m <;> simp [txStep, pushSend, h, List.mem_append] <;>
    first
    | exact hx
    | exact Or.inl hx

theorem foldl_txStep_diags_mem (cfg : Config) (enc : MsgKind → Option (List Nat)) (x : Nat) :
    ∀ (l : List MsgKind) (s : TxState), x ∈ s.diags →
      x ∈ (l.foldl (txStep cfg enc) s).diags := by
  intro l
  induction l with
  | nil => intro s hx; exact hx
  | cons m rest ih =>
    intro s hx
    rw [List.foldl_cons]
    exact ih _ (txStep_diags_mem cfg enc s m x hx)

theorem packIter_sent_length (cfg : Config) (pack : List Nat) (s : TxState) :
    (packIter cfg pack s).sent.length = s.sent.length + (packTargets cfg).length := by
  by_cases hb : cfg.use_beacon <;> by_cases h5 : cfg.use_bt5 <;>
    simp [packIter, pushSend, packTargets, hb, h5]

theorem packFold_sent_length (cfg : Config) (pack : List Nat) :
    ∀ (n : Nat) (s : TxState),
      (((List.range n).foldl (fun st _ => packIter cfg pack st) s).sent).length
        = s.sent.length + n * (packTargets cfg).length := by
  intro n
  induction n with
  | zero => intro s; simp
  | succ k ih =>
    intro s
    rw [List.range_succ, List.foldl_append, List.foldl_cons, List.foldl_nil,
      packIter_sent_length, ih]
    ring

/-- C6, counterexample to the claim as stated: with an encoder failing on auth
page 1, `send_single_messages` reports the diagnostic but still dispatches all
nine messages; the failed item's send happens anyway, to a non-empty transport
list, carrying the scratch buffer's stale contents (the previous message's
encoding, auth page 0).  The failed iteration is not skipped. -/
theorem c6_cex_failed_item_still_dispatched :
    (send_single_messages { use_btl := true } (encFailAt .auth1) initTxState).sent.length = 9
    ∧ ((send_single_messages { use_btl := true } (encFailAt .auth1) initTxState).sent.getD 4
        defaultEvent).kind = .auth1
    ∧ ((send_single_messages { use_btl := true } (encFailAt .auth1) initTxState).sent.getD 4
        defaultEvent).targets = [.btl]
    ∧ ((send_single_messages { use_btl := true } (encFailAt .auth1) initTxState).sent.getD 4
        defaultEvent).payload = [encFailCode .auth0]
    ∧ encFailCode .auth1
        ∈ (send_single_messages { use_btl := true } (encFailAt .auth1) initTxState).diags := by
  decide

/-- C6 (amended): an encoding failure is reported with a diagnostic and never
aborts the run — all nine sends of a singles cycle and all pack sends of a
pack burst still happen — but the failed item is not skipped: the singles loop
dispatches it anyway (with the scratch buffer's previous contents), and a
failed `encodeMessagePack` leaves the zero-initialised pack struct, which
`send_packs` still transmits on every enabled pack transport. -/
theorem c6_encoding_failures (cfg : Config) (enc : MsgKind → Option (List Nat)) (s0 : TxState) :
    (send_single_messages cfg enc s0).sent.length = s0.sent.length + 9
    ∧ (∀ m ∈ msgOrder, enc m = none →
        encFailCode m ∈ (send_single_messages cfg enc s0).diags)
    ∧ (∀ encPack : List (List Nat) → Option (List Nat), encPack (packMessages enc) = none →
        (create_message_pack enc encPack).1 = zeroPack
        ∧ encFailCode .packK ∈ (create_message_pack enc encPack).2)
    ∧ (∀ encPack : List (List Nat) → Option (List Nat),
        (send_packs cfg enc encPack s0).sent.length
          = s0.sent.length + 10 * (packTargets cfg).length) := by
  refine ⟨?_, ?_, ?_, ?_⟩
  · simp only [send_single_messages, msgOrder, List.foldl_cons, List.foldl_nil,
      txStep_sent_length]
  · intro m hm hnone
    obtain ⟨l1, l2, hsplit⟩ := List.append_of_mem hm
    unfold send_single_messages
    rw [hsplit, List.foldl_append, List.foldl_cons]
    apply foldl_txStep_diags_mem
    simp [txStep, hnone, pushSend]
  · intro encPack hp
    unfold packMessages at hp
    simp [create_message_pack, hp]
  · intro encPack
    unfold send_packs
    exact packFold_sent_length cfg _ 10 s0

/-- C6 witness: `c6_encoding_failures` applied at a concrete run with a
failing auth-page-1 encoder and a failing pack encoder. -/
theorem c6_encoding_failures_witness :
    (send_single_messages { use_btl := true } (encFailAt .auth1) initTxState).sent.length = 9
    ∧ encFailCode .auth1
        ∈ (send_single_messages { use_btl := true } (encFailAt .auth1) initTxState).diags
    ∧ (create_message_pack (encFailAt .auth1) (fun _ => none)).1 = zeroPack
    ∧ (send_packs { use_beacon := true } (encFailAt .auth1) (fun _ => none)
        initTxState).sent.length = 10 :=
  ⟨(c6_encoding_failures { use_btl := true } (encFailAt .auth1) initTxState).1,
   (c6_encoding_failures { use_btl := true } (encFailAt .auth1) initTxState).2.1 .auth1
     (by decide) rfl,
   ((c6_encoding_failures { use_btl := true } (encFailAt .auth1) initTxState).2.2.1
     (fun _ => none) rfl).1,
   (c6_encoding_failures { use_beacon := true } (encFailAt .auth1) initTxState).2.2.2
     (fun _ => none)⟩

/-! ## Claim C2 -/

theorem txStep_sent_kinds (cfg : Config) (enc : MsgKind → Option (List Nat)) (s : TxState)
    (m : MsgKind) :
    (txStep cfg enc s m).sent.map SendEvent.kind = s.sent.map SendEvent.kind ++ [m] := by
  cases h : enc m <;> simp [txStep, pushSend, h]

theorem send_single_messages_kinds (cfg : Config) (enc : MsgKind → Option (List Nat))
    (s0 : TxState) :
    (send_single_messages cfg enc s0).sent.map SendEvent.kind
      = s0.sent.map SendEvent.kind ++ msgOrder := by
  simp [send_single_messages, msgOrder, List.foldl_cons, List.foldl_nil, txStep_sent_kinds]

theorem sign_data_frag_page3 (L : Nat) (buf : Nat → Nat) (hL : 72 ≤ L) :
    ((sign_data_frag initAuthPages L buf).getD 3 defaultPage).dataPage = 3
    ∧ ((sign_data_frag initAuthPages L buf).getD 3 defaultPage).authType
      = ODID_AUTH_UAS_ID_SIGNATURE := by
  have h4 : L / 24 + 1 = 4 + (L / 24 - 3) := by omega
  unfold sign_data_frag
  rw [h4, List.range_add, List.foldl_append]
  rw [foldl_iterStep_getD_of_forall L buf 3 defaultPage (by omega) _ _
    (by intro i hi; obtain ⟨x, _, hx⟩ := List.mem_map.mp hi; omega)]
  have hr4 : List.range 4 = [0, 1, 2, 3] := rfl
  rw [hr4]
  simp only [List.foldl_cons, List.foldl_nil]
  have hA0 : (setPage (setPage initAuthPages 0 (fun p => { p with pageLength := L % 256 })) 0
      (fun p => { p with
        authData := memcpy0 p.authData (bufSlice buf 0 17) })).length = 16 := by
    rw [setPage_length, setPage_length]; rfl
  have hX : (iterStep L buf (iterStep L buf (iterStep L buf
      (setPage (setPage initAuthPages 0 (fun p => { p with pageLength := L % 256 })) 0
        (fun p => { p with authData := memcpy0 p.authData (bufSlice buf 0 17) })) 0) 1) 2).length
      = 16 := by
    rw [iterStep_length, iterStep_length, iterStep_length, hA0]
  rw [iterStep]
  rw [getD_setPage_self _ _ 3 defaultPage (by rw [setPage_length, setPage_length, hX]; omega),
    getD_setPage_self _ _ 3 defaultPage (by rw [setPage_length, hX]; omega)]
  exact ⟨rfl, rfl⟩

/-- C2, counterexample to the claim as stated: a 72-byte signature (the DER
size bound `ECDSA_size` actually allocated for secp256k1) needs more than the
3-page layout, yet `sign_data` surfaces no error: its fragmentation runs to
completion, populating a 4th page (`DataPage` 3) and leaving
`LastPageIndex` 4, while the transmission path (`send_single_messages` /
`create_message_pack`) carries exactly three auth slots — the excess signature
bytes are silently dropped, not rejected. -/
theorem c2_cex_oversized_signature_not_rejected :
    ((sign_data_frag initAuthPages 72 (fun j => j % 256)).getD 3 defaultPage).dataPage = 3
    ∧ ((sign_data_frag initAuthPages 72 (fun j => j % 256)).getD 3 defaultPage).authType
      = ODID_AUTH_UAS_ID_SIGNATURE
    ∧ ((sign_data_frag initAuthPages 72 (fun j => j % 256)).getD 0 defaultPage).lastPageIndex = 4
    ∧ (msgOrder.filter fun m =>
        m == MsgKind.auth0 || m == MsgKind.auth1 || m == MsgKind.auth2).length = 3 := by
  decide

/-- C2 (amended): `sign_data` performs no page-budget check and surfaces no
error for oversized signatures: for every signature length of at least 72
bytes the fragmentation completes normally and populates a page beyond the
three-page layout (page index 3 gets `DataPage` 3 and the signature auth
type), while a singles transmission cycle dispatches exactly the fixed nine
messages — of which exactly three are auth pages — so signature bytes beyond
the third page are silently never transmitted. -/
theorem c2_no_budget_check (L : Nat) (buf : Nat → Nat) (hL : 72 ≤ L) :
    ((sign_data_frag initAuthPages L buf).getD 3 defaultPage).dataPage = 3
    ∧ ((sign_data_frag initAuthPages L buf).getD 3 defaultPage).authType
      = ODID_AUTH_UAS_ID_SIGNATURE
    ∧ ∀ (cfg : Config) (enc : MsgKind → Option (List Nat)) (s0 : TxState),
        (send_single_messages cfg enc s0).sent.map SendEvent.kind
          = s0.sent.map SendEvent.kind ++ msgOrder :=
  ⟨(sign_data_frag_page3 L buf hL).1, (sign_data_frag_page3 L buf hL).2,
   fun cfg enc s0 => send_single_messages_kinds cfg enc s0⟩

/-- C2 witness: `c2_no_budget_check` at the concrete allocation size 72. -/
theorem c2_no_budget_check_witness :
    ((sign_data_frag initAuthPages 72 (fun _ => 0)).getD 3 defaultPage).dataPage = 3
    ∧ ((sign_data_frag initAuthPages 72 (fun _ => 0)).getD 3 defaultPage).authType
      = ODID_AUTH_UAS_ID_SIGNATURE
    ∧ (send_single_messages { use_btl := true } (fun _ => none) initTxState).sent.map
        SendEvent.kind = initTxState.sent.map SendEvent.kind ++ msgOrder :=
  ⟨(c2_no_budget_check 72 (fun _ => 0) (by decide)).1,
   (c2_no_budget_check 72 (fun _ => 0) (by decide)).2.1,
   (c2_no_budget_check 72 (fun _ => 0) (by decide)).2.2 { use_btl := true } (fun _ => none)
     initTxState⟩

/-! ## Claim C8 -/

/-- C8: digest determinism — any two records that agree on every
digest-covered field after truncation to integer (both `UASID` buffers, the
nine truncated location fields, the self-description buffer, the truncated
operator latitude/longitude/altitude, the system timestamp and the operator-ID
buffer) produce the identical SHA-256 input byte sequence, and hence the
identical digest; fields excluded from the digest (type tags, status, accuracy
enums, area fields, auth pages, ...) and sub-truncation-unit floating noise
cannot change it. -/
theorem c8_digest_determinism (r1 r2 : UASRecord)
    (h1 : r1.basicID0.uasID = r2.basicID0.uasID)
    (h2 : r1.basicID1.uasID = r2.basicID1.uasID)
    (h3 : truncQ r1.location.direction = truncQ r2.location.direction)
    (h4 : truncQ r1.location.speedHorizontal = truncQ r2.location.speedHorizontal)
    (h5 : truncQ r1.location.speedVertical = truncQ r2.location.speedVertical)
    (h6 : truncQ r1.location.latitude = truncQ r2.location.latitude)
    (h7 : truncQ r1.location.longitude = truncQ r2.location.longitude)
    (h8 : truncQ r1.location.altitudeBaro = truncQ r2.location.altitudeBaro)
    (h9 : truncQ r1.location.altitudeGeo = truncQ r2.location.altitudeGeo)
    (h10 : truncQ r1.location.height = truncQ r2.location.height)
    (h11 : truncQ r1.location.timeStamp = truncQ r2.location.timeStamp)
    (h12 : r1.selfID.desc = r2.selfID.desc)
    (h13 : truncQ r1.system.operatorLatitude = truncQ r2.system.operatorLatitude)
    (h14 : truncQ r1.system.operatorLongitude = truncQ r2.system.operatorLongitude)
    (h15 : truncQ r1.system.operatorAltitudeGeo = truncQ r2.system.operatorAltitudeGeo)
    (h16 : r1.system.timestamp = r2.system.timestamp)
    (h17 : r1.operatorID.operatorId = r2.operatorID.operatorId) :
    digestInput r1 = digestInput r2 := by
  simp only [digestInput, hash_basic_id, hash_location, hash_system,
    h1, h2, h3, h4, h5, h6, h7, h8, h9, h10, h11, h12, h13, h14, h15, h16, h17]

/-- C8 witness: `c8_digest_determinism` at two concrete records that differ in
digest-excluded fields (basic-ID type tag, location status, area ceiling) and
in sub-unit float noise (direction 361 vs 361.25, latitude 51.5 vs 51.9), yet
have the identical digest input. -/
theorem c8_digest_determinism_witness :
    digestInput c8RecordA = digestInput c8RecordB ∧ c8RecordA ≠ c8RecordB :=
  ⟨c8_digest_determinism c8RecordA c8RecordB rfl rfl (by decide) (by decide) (by decide)
      (by decide) (by decide) (by decide) (by decide) (by decide) (by decide) rfl (by decide)
      (by decide) (by decide) rfl rfl,
   by decide⟩

/-! ## Claim C10 -/

theorem applyFlag_id (cf : Config) (c : Char) (h : c ∉ flagChars) : applyFlag cf c = cf := by
  simp only [flagChars, List.mem_cons, List.not_mem_nil, or_false, not_or] at h
  obtain ⟨h1, h2, h3, h4, h5, h6⟩ := h
  simp [applyFlag, h1, h2, h3, h4, h5, h6]

theorem foldCfg_eq_of_map_eq (args args' : List (List Char))
    (h : args.map firstChar = args'.map firstChar) : foldCfg args = foldCfg args' := by
  unfold foldCfg
  rw [← List.foldl_map firstChar applyFlag args, ← List.foldl_map firstChar applyFlag args', h]

theorem foldCfg_ignores (l1 l2 : List (List Char)) (a : List Char)
    (h : firstChar a ∉ flagChars) : foldCfg (l1 ++ a :: l2) = foldCfg (l1 ++ l2) := by
  unfold foldCfg
  rw [List.foldl_append, List.foldl_append, List.foldl_cons, applyFlag_id _ _ h]

theorem foldCfg_all_ignored :
    ∀ (args : List (List Char)) (cf : Config), (∀ a ∈ args, firstChar a ∉ flagChars) →
      args.foldl (fun c a => applyFlag c (firstChar a)) cf = cf := by
  intro args
  induction args with
  | nil => intro cf _; rfl
  | cons a rest ih =>
    intro cf h
    rw [List.foldl_cons, applyFlag_id _ _ (h a (List.mem_cons_self a rest))]
    exact ih cf (fun b hb => h b (List.mem_cons_of_mem a hb))

/-- C10: `parse_command_line` inspects only the first character of each
argument (two argument lists with the same first characters parse to the same
result and the same printed diagnostics); an argument whose first character is
not one of `b`, `l`, `4`, `5`, `p`, `g` is silently ignored — removing it
changes neither the result nor the diagnostics, so it triggers no diagnostic
and no error exit; and when no argument carries a recognised flag the parser
prints help and exits 0 with no warnings. -/
theorem c10_parser_first_char_only :
    (∀ args args' : List (List Char), args.map firstChar = args'.map firstChar →
      parseFull args = parseFull args')
    ∧ (∀ (l1 l2 : List (List Char)) (a : List Char), firstChar a ∉ flagChars →
        parseFull (l1 ++ a :: l2) = parseFull (l1 ++ l2))
    ∧ (∀ args : List (List Char), (∀ a ∈ args, firstChar a ∉ flagChars) →
        parseFull args = (.help, [])) := by
  refine ⟨?_, ?_, ?_⟩
  · intro args args' h
    unfold parseFull
    by_cases he : args = []
    · have he' : args' = [] := by
        rw [he] at h
        exact List.map_eq_nil_iff.mp h.symm
      rw [he, he']
    · have he' : args' ≠ [] := by
        intro hc
        rw [hc] at h
        exact he (List.map_eq_nil_iff.mp h)
      rw [if_neg he, if_neg he', foldCfg_eq_of_map_eq args args' h]
  · intro l1 l2 a h
    unfold parseFull
    rw [if_neg (by simp)]
    by_cases he : l1 ++ l2 = []
    · rw [if_pos he, foldCfg_ignores l1 l2 a h, he]
      rfl
    · rw [if_neg he, foldCfg_ignores l1 l2 a h]
  · intro args h
    unfold parseFull
    by_cases he : args = []
    · rw [if_pos he]
    · rw [if_neg he]
      unfold foldCfg
      rw [foldCfg_all_ignored args _ h]
      rfl

/-- C10 witness: `c10_parser_first_char_only` at concrete argument lists: only
first characters matter (`x` vs `xy`), the unrecognised argument `x` is
ignored next to the recognised `l`, and a lone unrecognised `z` yields help
with no diagnostics. -/
theorem c10_parser_first_char_only_witness :
    parseFull [['l'], ['x']] = parseFull [['l'], ['x', 'y']]
    ∧ parseFull [['l'], ['x']] = parseFull [['l']]
    ∧ parseFull [['z']] = (.help, []) :=
  ⟨c10_parser_first_char_only.1 [['l'], ['x']] [['l'], ['x', 'y']] (by decide),
   c10_parser_first_char_only.2.1 [['l']] [] ['x'] (by decide),
   c10_parser_first_char_only.2.2 [['z']] (by decide)⟩
